import Mathlib

/-
Verification of the analytics-engine consumer (src/analytics-engine/consumer.py).

The program is a single-threaded loop: a Kafka consumer whose
value_deserializer runs json.loads on each payload, and for each message a
Neo4j session in which one write transaction runs update_graph, a fixed
Cypher MERGE upsert of a User node, a Category node and a POSTED_IN edge.
Exceptions raised inside the per-message try block (missing keys, store
errors) are caught and logged; an exception raised by the deserializer
happens inside the consumer iterator, outside the try block.

The embedding below models:
  - JSON values as produced by json.loads (mutual inductive to keep
    decidable equality);
  - Python item access data[key] with its KeyError / TypeError behaviour
    (a Python dict built by json.loads keeps the LAST occurrence of a
    duplicated key, hence lookupLast);
  - the graph store state as lists of User node identities, Category node
    identities and POSTED_IN edges, with the standard Cypher MERGE
    semantics (create-if-absent, match otherwise) for the query text in
    update_graph;
  - the observable behaviour of one loop iteration as a trace of events:
    console prints, session open/close, transaction start, query run,
    commit or rollback. A transaction that fails to commit rolls its
    graph effects back but keeps any console output already printed.
-/

mutual

inductive Json where
  | null
  | bool (b : Bool)
  | num (n : Int)
  | str (s : String)
  | arr (xs : JsonList)
  | obj (fields : JsonFields)
deriving DecidableEq

inductive JsonList where
  | nil
  | cons (hd : Json) (tl : JsonList)
deriving DecidableEq

inductive JsonFields where
  | nil
  | cons (key : String) (val : Json) (tl : JsonFields)
deriving DecidableEq

end

/-- Conversion helper to build JSON object field lists from Lean lists. -/
def JsonFields.ofList : List (String × Json) → JsonFields
  | [] => .nil
  | (k, v) :: rest => .cons k v (ofList rest)

/-- Shorthand for a JSON object built from a Lean list of key/value pairs. -/
def Json.mkObj (l : List (String × Json)) : Json :=
  .obj (JsonFields.ofList l)

/-- Last-occurrence lookup in a JSON object field list: a Python dict built
by json.loads keeps the last value for a duplicated key. -/
def JsonFields.lookupLast : JsonFields → String → Option Json
  | .nil, _ => none
  | .cons k v tl, key =>
    match tl.lookupLast key with
    | some w => some w
    | none => if k = key then some v else none

/-- Python exceptions that the consumer loop can encounter. -/
inductive PyError where
  | jsonDecodeError
  | keyError (k : String)
  | typeError
  | neo4jError
deriving DecidableEq

/-- Message text used when an exception is printed by the except branch.
The exact wording is Python-library detail and does not matter for any
property; only its presence in the console trace does. -/
def pyErrMsg : PyError → String
  | .jsonDecodeError => "Expecting value"
  | .keyError k => "KeyError " ++ k
  | .typeError => "string indices must be integers"
  | .neo4jError => "ServiceUnavailable"

/-- Embedding of Python data[key] on a json.loads result: a dict yields the
value (or raises KeyError when the key is absent), every other JSON value
raises TypeError. -/
def getItem : Json → String → Except PyError Json
  | .obj fields, key =>
    match fields.lookupLast key with
    | some v => .ok v
    | none => .error (.keyError key)
  | _, _ => .error .typeError

/-- Whether data[key] would succeed. -/
def hasKey (data : Json) (key : String) : Bool :=
  match getItem data key with
  | .ok _ => true
  | .error _ => false

mutual

/-- Rendering of a JSON value roughly as a Python f-string renders the
corresponding json.loads value; for string values (the common case in
the log lines the claims mention) it is exact. -/
def pyStr : Json → String
  | .null => "None"
  | .bool true => "True"
  | .bool false => "False"
  | .num n => toString n
  | .str s => s
  | .arr xs => "[" ++ pyStrList xs ++ "]"
  | .obj fs => "\x7b" ++ pyStrFields fs ++ "\x7d"

def pyStrList : JsonList → String
  | .nil => ""
  | .cons j .nil => pyStr j
  | .cons j tl => pyStr j ++ ", " ++ pyStrList tl

def pyStrFields : JsonFields → String
  | .nil => ""
  | .cons k v .nil => k ++ ": " ++ pyStr v
  | .cons k v tl => k ++ ": " ++ pyStr v ++ ", " ++ pyStrFields tl

end

/-- State of the graph store: User node identities, Category node
identities, and directed POSTED_IN edges. Node identity is the value bound
to the name property, exactly as the MERGE query keys nodes. -/
structure Graph where
  users : List Json
  categories : List Json
  edges : List (Json × Json)
deriving DecidableEq

/-- The graph of a fresh store. -/
def Graph.empty : Graph :=
  { users := [], categories := [], edges := [] }

/-- MERGE semantics for one pattern: match if present, create otherwise.
New entities are appended, existing ones left untouched. -/
def insertIfAbsent {α : Type} [DecidableEq α] (x : α) (xs : List α) : List α :=
  if x ∈ xs then xs else xs ++ [x]

/-- Effect on the graph of the fixed Cypher query in update_graph:
MERGE (u:User with name user) MERGE (c:Category with name category)
MERGE (u)-[:POSTED_IN]->(c). -/
def mergeQuery (g : Graph) (user category : Json) : Graph :=
  { users := insertIfAbsent user g.users
    categories := insertIfAbsent category g.categories
    edges := insertIfAbsent (user, category) g.edges }

/-- Observable events of one loop iteration: console output and the
session/transaction lifecycle of the with-block and write_transaction. -/
inductive TraceEvent where
  | printed (s : String)
  | sessionOpened
  | txStarted
  | queryRun (user category : Json)
  | txCommitted
  | txRolledBack
  | sessionClosed
deriving DecidableEq

/-- Result of the Kafka value_deserializer on one raw payload: either the
bytes decode as JSON or json.loads raises. -/
inductive Payload where
  | malformed
  | wellFormed (j : Json)
deriving DecidableEq

/-- One message delivery together with the behaviour of the external graph
store while it is processed: whether tx.run raises (store unreachable or
query rejected) and whether the transaction fails at commit time. -/
structure Delivery where
  payload : Payload
  txRunFails : Bool
  commitFails : Bool
deriving DecidableEq

/-- Embedding of the consumer value_deserializer
(lambda x: json.loads(x.decode(utf8))): the JSON value, or the
json.JSONDecodeError it raises. -/
def value_deserializer : Payload → Except PyError Json
  | .malformed => .error .jsonDecodeError
  | .wellFormed j => .ok j

/-- State carried across loop iterations: the graph store contents and the
trace of observable events so far. -/
structure LoopState where
  graph : Graph
  trace : List TraceEvent
deriving DecidableEq

/-- Append one observable event. -/
def emit (st : LoopState) (e : TraceEvent) : LoopState :=
  { st with trace := st.trace ++ [e] }

/-- The state before the first message: empty store, no output. -/
def initState : LoopState :=
  { graph := Graph.empty, trace := [] }

/-- Embedding of update_graph(tx, user, category): run the MERGE query with
the two parameters and print the success line, inside the transaction.
Returns the graph after the query together with the events the transaction
function emits, in order: the query run, then the print. -/
def update_graph (g : Graph) (user category : Json) : Graph × List TraceEvent :=
  (mergeQuery g user category,
   [TraceEvent.queryRun user category,
    TraceEvent.printed ("Graph Updated: " ++ pyStr user ++ " -> " ++ pyStr category)])

/-- One iteration of the for-loop over the consumer. Returns the state
after the iteration and the uncaught exception, if any. Faithful to the
source order: the deserializer runs inside the consumer iterator (outside
the try block), then the Received Event print, then the with-block opens a
session, the arguments data[user] and data[category] are evaluated, and
write_transaction runs update_graph; the with-block closes the session on
every path, and the except branch catches any exception raised inside the
try block and prints the Neo4j Error line. A transaction that fails to
commit rolls back its graph effects but not its console output. -/
def processMessage (st : LoopState) (d : Delivery) : LoopState × Option PyError :=
  match value_deserializer d.payload with
  | .error e => (st, some e)
  | .ok data =>
    let st1 := emit st (.printed ("Received Event: " ++ pyStr data))
    let tryResult : LoopState × Option PyError :=
      let st2 := emit st1 .sessionOpened
      match getItem data "user" with
      | .error e => (emit st2 .sessionClosed, some e)
      | .ok user =>
        match getItem data "category" with
        | .error e => (emit st2 .sessionClosed, some e)
        | .ok category =>
          let st3 := emit st2 .txStarted
          if d.txRunFails then
            (emit (emit st3 .txRolledBack) .sessionClosed, some .neo4jError)
          else
            let r := update_graph st3.graph user category
            let st4 : LoopState := { graph := r.1, trace := st3.trace ++ r.2 }
            if d.commitFails then
              (emit (emit { st4 with graph := st3.graph } .txRolledBack) .sessionClosed,
               some .neo4jError)
            else
              (emit (emit st4 .txCommitted) .sessionClosed, none)
    match tryResult with
    | (st5, some e) => (emit st5 (.printed ("Neo4j Error: " ++ pyErrMsg e)), none)
    | (st5, none) => (st5, none)

/-- The consumer loop over a finite batch of deliveries: process messages
in order until the batch is drained or an uncaught exception terminates
the loop (returned as some error; the remaining messages are never seen). -/
def runLoop : LoopState → List Delivery → LoopState × Option PyError
  | st, [] => (st, none)
  | st, d :: rest =>
    match processMessage st d with
    | (st1, none) => runLoop st1 rest
    | (st1, some e) => (st1, some e)

/-- The JSON object of a well-formed (user, category) event. -/
def eventPayload (u c : String) : Json :=
  Json.mkObj [("user", .str u), ("category", .str c)]

/-- A well-formed (user, category) event delivered while the store is
healthy: the write transaction runs and commits. -/
def goodEvent (u c : String) : Delivery :=
  { payload := .wellFormed (eventPayload u c), txRunFails := false, commitFails := false }

theorem getItem_eventPayload_user (u c : String) :
    getItem (eventPayload u c) "user" = .ok (.str u) := rfl

theorem getItem_eventPayload_category (u c : String) :
    getItem (eventPayload u c) "category" = .ok (.str c) := rfl

/-- Computation of one loop iteration on a healthy (user, category) event:
the graph gains the merged user, category and edge, and the iteration emits
the full print/session/transaction trace with no uncaught exception. -/
theorem processMessage_goodEvent (st : LoopState) (u c : String) :
    processMessage st (goodEvent u c) =
      ({ graph := mergeQuery st.graph (.str u) (.str c),
         trace := st.trace ++
           [.printed ("Received Event: " ++ pyStr (eventPayload u c)),
            .sessionOpened, .txStarted, .queryRun (.str u) (.str c),
            .printed ("Graph Updated: " ++ u ++ " -> " ++ c),
            .txCommitted, .sessionClosed] }, none) := by
  simp [processMessage, goodEvent, value_deserializer, emit, update_graph,
        getItem_eventPayload_user, getItem_eventPayload_category, pyStr]

theorem insertIfAbsent_of_mem {α : Type} [DecidableEq α] {x : α} {xs : List α} (h : x ∈ xs) :
    insertIfAbsent x xs = xs := if_pos h

theorem mem_insertIfAbsent {α : Type} [DecidableEq α] (x : α) (xs : List α) :
    x ∈ insertIfAbsent x xs := by
  unfold insertIfAbsent
  split
  · assumption
  · simp

/-- MERGE of a (user, category) pair already merged is a no-op on the graph. -/
theorem mergeQuery_idem (g : Graph) (a b : Json) :
    mergeQuery (mergeQuery g a b) a b = mergeQuery g a b := by
  simp [mergeQuery, insertIfAbsent_of_mem (mem_insertIfAbsent _ _)]

/-- Runs of the same healthy event leave any graph they cannot change unchanged. -/
theorem runLoop_good_fixed (u c : String) :
    ∀ (n : Nat) (st : LoopState), mergeQuery st.graph (.str u) (.str c) = st.graph →
    (runLoop st (List.replicate n (goodEvent u c))).1.graph = st.graph ∧
    (runLoop st (List.replicate n (goodEvent u c))).2 = none := by
  intro n
  induction n with
  | zero => intro st h; simp [runLoop]
  | succ m ih =>
    intro st h
    rw [List.replicate_succ, runLoop, processMessage_goodEvent]
    have h2 := ih { graph := mergeQuery st.graph (.str u) (.str c),
                    trace := st.trace ++
                      [.printed ("Received Event: " ++ pyStr (eventPayload u c)),
                       .sessionOpened, .txStarted, .queryRun (.str u) (.str c),
                       .printed ("Graph Updated: " ++ u ++ " -> " ++ c),
                       .txCommitted, .sessionClosed] }
    simp only [mergeQuery_idem] at h2
    have h3 := h2 trivial
    simpa [h] using h3

theorem mergeQuery_empty (u c : String) :
    mergeQuery Graph.empty (.str u) (.str c) =
      { users := [.str u], categories := [.str c], edges := [(.str u, .str c)] } := by
  simp [mergeQuery, Graph.empty, insertIfAbsent]

/-- Claim C1: idempotence of the upsert. For every user name u and category
name c, applying the same (u, c) event N times (N at least 1) leaves the
graph with exactly one User node named u, exactly one Category node named
c, and exactly one POSTED_IN edge from that User node to that Category
node; repeated delivery creates no duplicate nodes or edges. -/
theorem event_upsert_idempotent (u c : String) (n : Nat) (h : 1 ≤ n) :
    (runLoop initState (List.replicate n (goodEvent u c))).1.graph =
      { users := [.str u], categories := [.str c], edges := [(.str u, .str c)] } ∧
    (runLoop initState (List.replicate n (goodEvent u c))).2 = none := by
  obtain ⟨m, rfl⟩ : ∃ m, n = m + 1 := ⟨n - 1, (Nat.succ_pred_eq_of_pos h).symm⟩
  rw [List.replicate_succ, runLoop, processMessage_goodEvent]
  have h2 := runLoop_good_fixed u c m
    { graph := mergeQuery initState.graph (.str u) (.str c),
      trace := initState.trace ++
        [.printed ("Received Event: " ++ pyStr (eventPayload u c)),
         .sessionOpened, .txStarted, .queryRun (.str u) (.str c),
         .printed ("Graph Updated: " ++ u ++ " -> " ++ c),
         .txCommitted, .sessionClosed] }
  simp only [mergeQuery_idem] at h2
  have h3 := h2 trivial
  simpa [initState, mergeQuery_empty] using h3

/-- Witness for claim C1: three deliveries of the same (alice, electronics)
event leave exactly one User node, one Category node and one edge. -/
theorem event_upsert_idempotent_w :
    (runLoop initState (List.replicate 3 (goodEvent "alice" "electronics"))).1.graph =
      { users := [.str "alice"], categories := [.str "electronics"],
        edges := [(.str "alice", .str "electronics")] } :=
  (event_upsert_idempotent "alice" "electronics" 3 (by decide)).1

/-- Claim C2, as frozen, is false at this input: a malformed payload
followed by a well-formed (alice, electronics) event. The deserializer
exception is raised inside the consumer iterator, outside the try block,
so the loop terminates with the uncaught JSONDecodeError and the next
message is never processed: the final state is exactly the initial state,
with no trace events and an empty graph, instead of a graph containing the
second event. The loop does not continue to the next message. -/
theorem malformed_crash_cex :
    runLoop initState [{ payload := .malformed, txRunFails := false, commitFails := false },
                       goodEvent "alice" "electronics"] =
      (initState, some .jsonDecodeError) := rfl

/-- Claim C2 (amended): for every message whose byte payload is malformed
JSON, no graph mutation occurs for it and it is not retried, but the
JSONDecodeError raised by the value_deserializer happens inside the
consumer iterator, outside the per-message try block, so it is uncaught
and the loop terminates instead of continuing to the next message. -/
theorem malformed_no_mutation_loop_stops (st : LoopState) (d : Delivery)
    (rest : List Delivery) (h : d.payload = .malformed) :
    processMessage st d = (st, some .jsonDecodeError) ∧
    runLoop st (d :: rest) = (st, some .jsonDecodeError) := by
  have h1 : processMessage st d = (st, some .jsonDecodeError) := by
    simp [processMessage, h, value_deserializer]
  exact ⟨h1, by simp [runLoop, h1]⟩

/-- Witness for the amended claim C2 at a concrete malformed delivery. -/
theorem malformed_no_mutation_loop_stops_w :
    processMessage initState { payload := .malformed, txRunFails := false, commitFails := false } =
      (initState, some .jsonDecodeError) :=
  (malformed_no_mutation_loop_stops initState _ [] rfl).1

/-- An iteration whose exception was caught hands its state to the rest of
the loop. -/
theorem runLoop_cons_of_caught (st : LoopState) (d : Delivery) (rest : List Delivery)
    (h : (processMessage st d).2 = none) :
    runLoop st (d :: rest) = runLoop (processMessage st d).1 rest := by
  rcases hq : processMessage st d with ⟨st1, eo⟩
  rw [hq] at h
  cases eo with
  | none => simp [runLoop, hq]
  | some e => simp at h

/-- Claim C3: atomic skip of an event missing a required key. For every
event whose JSON object lacks the user key or the category key (KeyError),
or is not an object at all (TypeError), the exception is raised while the
arguments of write_transaction are evaluated, inside the try block: no
graph mutation is performed for that event — in particular no User node is
created with a dangling or partial edge — the exception is caught, and the
loop continues with the next message. -/
theorem missing_key_skipped (st : LoopState) (data : Json) (tf cf : Bool) (rest : List Delivery)
    (h : hasKey data "user" = false ∨ hasKey data "category" = false) :
    (processMessage st { payload := .wellFormed data, txRunFails := tf, commitFails := cf }).1.graph
      = st.graph ∧
    (processMessage st { payload := .wellFormed data, txRunFails := tf, commitFails := cf }).2
      = none ∧
    runLoop st ({ payload := .wellFormed data, txRunFails := tf, commitFails := cf } :: rest) =
      runLoop
        (processMessage st { payload := .wellFormed data, txRunFails := tf, commitFails := cf }).1
        rest := by
  have hmain :
      (processMessage st { payload := .wellFormed data, txRunFails := tf, commitFails := cf }).1.graph
        = st.graph ∧
      (processMessage st { payload := .wellFormed data, txRunFails := tf, commitFails := cf }).2
        = none := by
    cases hgu : getItem data "user" with
    | error e => simp [processMessage, value_deserializer, emit, hgu]
    | ok u =>
      have h2 : hasKey data "category" = false := by
        rcases h with h | h
        · simp [hasKey, hgu] at h
        · exact h
      cases hgc : getItem data "category" with
      | error e => simp [processMessage, value_deserializer, emit, hgu, hgc]
      | ok cv => simp [hasKey, hgc] at h2
  exact ⟨hmain.1, hmain.2, runLoop_cons_of_caught st _ rest hmain.2⟩

/-- Witness for claim C3: an event carrying only a user key mutates nothing. -/
theorem missing_key_skipped_w :
    (hasKey (Json.mkObj [("user", .str "alice")]) "user" = false ∨
     hasKey (Json.mkObj [("user", .str "alice")]) "category" = false) ∧
    (processMessage initState
      { payload := .wellFormed (Json.mkObj [("user", .str "alice")]),
        txRunFails := false, commitFails := false }).1.graph = initState.graph :=
  ⟨Or.inr (by decide),
   (missing_key_skipped initState (Json.mkObj [("user", .str "alice")]) false false []
      (Or.inr (by decide))).1⟩

/-- Claim C4: write-failure isolation. For every message whose graph write
raises — whether tx.run fails or the transaction fails to commit — the
error is caught at the loop level, the graph is left unchanged (a failed
commit rolls the transaction back), the failed message is not retried, and
the loop hands its state to the next message unchanged, which is processed
independently with its own write attempt. -/
theorem write_failure_isolated (st : LoopState) (data : Json) (tf cf : Bool)
    (rest : List Delivery)
    (hu : hasKey data "user" = true) (hcat : hasKey data "category" = true)
    (hfail : tf = true ∨ cf = true) :
    (processMessage st { payload := .wellFormed data, txRunFails := tf, commitFails := cf }).1.graph
      = st.graph ∧
    (processMessage st { payload := .wellFormed data, txRunFails := tf, commitFails := cf }).2
      = none ∧
    runLoop st ({ payload := .wellFormed data, txRunFails := tf, commitFails := cf } :: rest) =
      runLoop
        (processMessage st { payload := .wellFormed data, txRunFails := tf, commitFails := cf }).1
        rest := by
  cases hgu : getItem data "user" with
  | error e => simp [hasKey, hgu] at hu
  | ok u =>
    cases hgc : getItem data "category" with
    | error e => simp [hasKey, hgc] at hcat
    | ok cv =>
      have hmain :
          (processMessage st
            { payload := .wellFormed data, txRunFails := tf, commitFails := cf }).1.graph
            = st.graph ∧
          (processMessage st
            { payload := .wellFormed data, txRunFails := tf, commitFails := cf }).2 = none := by
        cases tf with
        | true => simp [processMessage, value_deserializer, emit, hgu, hgc]
        | false =>
          have hcf : cf = true := by
            rcases hfail with h | h
            · exact absurd h (by decide)
            · exact h
          subst hcf
          simp [processMessage, value_deserializer, emit, update_graph, hgu, hgc]
      exact ⟨hmain.1, hmain.2, runLoop_cons_of_caught st _ rest hmain.2⟩

/-- Witness for claim C4: a delivery whose tx.run raises leaves the graph
unchanged. -/
theorem write_failure_isolated_w :
    (processMessage initState
      { payload := .wellFormed (eventPayload "alice" "books"),
        txRunFails := true, commitFails := false }).1.graph = initState.graph :=
  (write_failure_isolated initState (eventPayload "alice" "books") true false []
    (by decide) (by decide) (Or.inl rfl)).1

/-- Claim C5: isolation of distinct events. Applying one event for (u1, c1)
and one for (u2, c2), with u1 different from u2 and c1 different from c2,
yields two independent User nodes, two independent Category nodes, and
exactly the two POSTED_IN edges u1 to c1 and u2 to c2, with no edge
between u1 and c2 or between u2 and c1. -/
theorem distinct_events_isolated (u1 c1 u2 c2 : String) (hu : u1 ≠ u2) (hc : c1 ≠ c2) :
    (runLoop initState [goodEvent u1 c1, goodEvent u2 c2]).1.graph =
      { users := [.str u1, .str u2], categories := [.str c1, .str c2],
        edges := [(.str u1, .str c1), (.str u2, .str c2)] } ∧
    (Json.str u1, Json.str c2) ∉
      (runLoop initState [goodEvent u1 c1, goodEvent u2 c2]).1.graph.edges ∧
    (Json.str u2, Json.str c1) ∉
      (runLoop initState [goodEvent u1 c1, goodEvent u2 c2]).1.graph.edges ∧
    (runLoop initState [goodEvent u1 c1, goodEvent u2 c2]).2 = none := by
  simp only [runLoop, processMessage_goodEvent]
  simp [initState, Graph.empty, mergeQuery, insertIfAbsent, Json.str.injEq, Prod.mk.injEq,
        hu, hc, Ne.symm hu, Ne.symm hc]

/-- Witness for claim C5 at the concrete pair (alice, books), (bob, games). -/
theorem distinct_events_isolated_w :
    (runLoop initState [goodEvent "alice" "books", goodEvent "bob" "games"]).1.graph =
      { users := [.str "alice", .str "bob"], categories := [.str "books", .str "games"],
        edges := [(.str "alice", .str "books"), (.str "bob", .str "games")] } :=
  (distinct_events_isolated "alice" "books" "bob" "games" (by decide) (by decide)).1

/-- Claim C6: ordering and additivity for one user. For every user name u
and distinct category names c1, c2, processing (u, c1) and then (u, c2)
leaves one User node u, both Category nodes c1 and c2, and both edges u to
c1 and u to c2: the second write neither removes the first edge nor is
lost because of it. -/
theorem same_user_two_categories (u c1 c2 : String) (hc : c1 ≠ c2) :
    (runLoop initState [goodEvent u c1, goodEvent u c2]).1.graph =
      { users := [.str u], categories := [.str c1, .str c2],
        edges := [(.str u, .str c1), (.str u, .str c2)] } ∧
    (runLoop initState [goodEvent u c1, goodEvent u c2]).2 = none := by
  simp only [runLoop, processMessage_goodEvent]
  simp [initState, Graph.empty, mergeQuery, insertIfAbsent, Json.str.injEq, Prod.mk.injEq,
        hc, Ne.symm hc]

/-- Witness for claim C6 at the concrete events (alice, books), (alice, games). -/
theorem same_user_two_categories_w :
    (runLoop initState [goodEvent "alice" "books", goodEvent "alice" "games"]).1.graph =
      { users := [.str "alice"], categories := [.str "books", .str "games"],
        edges := [(.str "alice", .str "books"), (.str "alice", .str "games")] } :=
  (same_user_two_categories "alice" "books" "games" (by decide)).1

/-- Claim C7: noninterference of extra fields. For any two events whose
JSON objects agree on the values looked up under user and under category
but differ arbitrarily in other fields, the graph mutation performed is
identical and the caught-or-uncaught outcome is identical: no field other
than user and category influences the graph write. -/
theorem extra_fields_noninterference (st : LoopState) (d1 d2 : Json) (tf cf : Bool)
    (hu : getItem d1 "user" = getItem d2 "user")
    (hc : getItem d1 "category" = getItem d2 "category") :
    (processMessage st { payload := .wellFormed d1, txRunFails := tf, commitFails := cf }).1.graph
      = (processMessage st
          { payload := .wellFormed d2, txRunFails := tf, commitFails := cf }).1.graph ∧
    (processMessage st { payload := .wellFormed d1, txRunFails := tf, commitFails := cf }).2
      = (processMessage st { payload := .wellFormed d2, txRunFails := tf, commitFails := cf }).2 := by
  cases hgu : getItem d1 "user" with
  | error e =>
    rw [hgu] at hu
    simp [processMessage, value_deserializer, emit, hgu, hu.symm]
  | ok u =>
    rw [hgu] at hu
    cases hgc : getItem d1 "category" with
    | error e =>
      rw [hgc] at hc
      simp [processMessage, value_deserializer, emit, hgu, hu.symm, hgc, hc.symm]
    | ok cv =>
      rw [hgc] at hc
      cases tf <;> cases cf <;>
        simp [processMessage, value_deserializer, emit, update_graph, hgu, hu.symm, hgc, hc.symm]

/-- Witness for claim C7: adding a price field and a tags field to an
(alice, books) event changes nothing in the resulting graph. -/
theorem extra_fields_noninterference_w :
    (processMessage initState
      { payload := .wellFormed (Json.mkObj [("user", .str "alice"), ("category", .str "books")]),
        txRunFails := false, commitFails := false }).1.graph
      = (processMessage initState
          { payload := .wellFormed (Json.mkObj
              [("user", .str "alice"), ("category", .str "books"),
               ("price", .num 5), ("tags", .arr (.cons (.str "x") .nil))]),
            txRunFails := false, commitFails := false }).1.graph :=
  (extra_fields_noninterference initState
    (Json.mkObj [("user", .str "alice"), ("category", .str "books")])
    (Json.mkObj [("user", .str "alice"), ("category", .str "books"),
                 ("price", .num 5), ("tags", .arr (.cons (.str "x") .nil))])
    false false rfl rfl).1

/-- Claim C8: scoped session release. For every successfully decoded event
(JSON object carrying both the user and the category key), the iteration
opens exactly one session against the graph store, runs exactly one write
transaction, and closes the session exactly once — whatever the
transaction does, including tx.run raising or the commit failing. -/
theorem session_scoped_release (st : LoopState) (data : Json) (tf cf : Bool)
    (hu : hasKey data "user" = true) (hcat : hasKey data "category" = true) :
    ∃ tr,
      (processMessage st
        { payload := .wellFormed data, txRunFails := tf, commitFails := cf }).1.trace
        = st.trace ++ tr ∧
      tr.count TraceEvent.sessionOpened = 1 ∧
      tr.count TraceEvent.txStarted = 1 ∧
      tr.count TraceEvent.sessionClosed = 1 := by
  cases hgu : getItem data "user" with
  | error e => simp [hasKey, hgu] at hu
  | ok u =>
    cases hgc : getItem data "category" with
    | error e => simp [hasKey, hgc] at hcat
    | ok cv =>
      cases tf with
      | true =>
        refine ⟨[.printed ("Received Event: " ++ pyStr data), .sessionOpened, .txStarted,
                 .txRolledBack, .sessionClosed,
                 .printed ("Neo4j Error: " ++ pyErrMsg .neo4jError)], ?_, ?_, ?_, ?_⟩
        · simp [processMessage, value_deserializer, emit, hgu, hgc]
        all_goals simp [List.count_cons, List.count_nil]
      | false =>
        cases cf with
        | true =>
          refine ⟨[.printed ("Received Event: " ++ pyStr data), .sessionOpened, .txStarted,
                   .queryRun u cv,
                   .printed ("Graph Updated: " ++ pyStr u ++ " -> " ++ pyStr cv),
                   .txRolledBack, .sessionClosed,
                   .printed ("Neo4j Error: " ++ pyErrMsg .neo4jError)], ?_, ?_, ?_, ?_⟩
          · simp [processMessage, value_deserializer, emit, update_graph, hgu, hgc]
          all_goals simp [List.count_cons, List.count_nil]
        | false =>
          refine ⟨[.printed ("Received Event: " ++ pyStr data), .sessionOpened, .txStarted,
                   .queryRun u cv,
                   .printed ("Graph Updated: " ++ pyStr u ++ " -> " ++ pyStr cv),
                   .txCommitted, .sessionClosed], ?_, ?_, ?_, ?_⟩
          · simp [processMessage, value_deserializer, emit, update_graph, hgu, hgc]
          all_goals simp [List.count_cons, List.count_nil]

/-- Witness for claim C8: even with a failing commit, the concrete
(alice, books) event opens, runs and closes exactly once. -/
theorem session_scoped_release_w :
    hasKey (eventPayload "alice" "books") "user" = true ∧
    ∃ tr,
      (processMessage initState
        { payload := .wellFormed (eventPayload "alice" "books"),
          txRunFails := false, commitFails := true }).1.trace
        = initState.trace ++ tr ∧
      tr.count TraceEvent.sessionOpened = 1 ∧
      tr.count TraceEvent.txStarted = 1 ∧
      tr.count TraceEvent.sessionClosed = 1 :=
  ⟨by decide,
   session_scoped_release initState (eventPayload "alice" "books") false true
     (by decide) (by decide)⟩

/-- Claim C9: no type validation on the required keys. For every event
whose JSON object yields values u and c of any JSON type under the user
and category keys — number, null, list, nested object, not only strings —
the loop attempts the graph write, running the query with exactly those
values as the node-identity parameters; no check rejects non-string values
before the write. -/
theorem no_type_validation (st : LoopState) (data u c : Json)
    (hu : getItem data "user" = .ok u) (hcat : getItem data "category" = .ok c) :
    (processMessage st
      { payload := .wellFormed data, txRunFails := false, commitFails := false }).1.graph
      = mergeQuery st.graph u c ∧
    TraceEvent.queryRun u c ∈
      (processMessage st
        { payload := .wellFormed data, txRunFails := false, commitFails := false }).1.trace ∧
    (processMessage st
      { payload := .wellFormed data, txRunFails := false, commitFails := false }).2 = none := by
  simp [processMessage, value_deserializer, emit, update_graph, hu, hcat]

/-- Witness for claim C9: a number as user and null as category reach the
query unchanged. -/
theorem no_type_validation_w :
    getItem (Json.mkObj [("user", .num 7), ("category", .null), ("extra", .bool true)]) "user"
      = .ok (.num 7) ∧
    (processMessage initState
      { payload := .wellFormed
          (Json.mkObj [("user", .num 7), ("category", .null), ("extra", .bool true)]),
        txRunFails := false, commitFails := false }).1.graph
      = mergeQuery initState.graph (.num 7) .null :=
  ⟨rfl,
   (no_type_validation initState
     (Json.mkObj [("user", .num 7), ("category", .null), ("extra", .bool true)])
     (.num 7) .null rfl rfl).1⟩

/-- Claim C10: success log precedes commit. Whenever the transaction
function runs (tx.run succeeds), the Graph Updated line is printed
immediately after the query run and before the transaction outcome event:
when the commit later fails the line has already been printed, the commit
event never appears, and the graph write is rolled back — so the success
log is not evidence of a committed write. -/
theorem success_log_before_commit (st : LoopState) (data u c : Json) (cf : Bool)
    (hu : getItem data "user" = .ok u) (hcat : getItem data "category" = .ok c) :
    (processMessage st
      { payload := .wellFormed data, txRunFails := false, commitFails := cf }).1.trace
      = st.trace ++
          [.printed ("Received Event: " ++ pyStr data), .sessionOpened, .txStarted,
           .queryRun u c,
           .printed ("Graph Updated: " ++ pyStr u ++ " -> " ++ pyStr c)] ++
        (if cf then
           [.txRolledBack, .sessionClosed, .printed ("Neo4j Error: " ++ pyErrMsg .neo4jError)]
         else [.txCommitted, .sessionClosed]) ∧
    (cf = true →
      (processMessage st
        { payload := .wellFormed data, txRunFails := false, commitFails := cf }).1.graph
        = st.graph) := by
  cases cf <;>
    simp [processMessage, value_deserializer, emit, update_graph, hu, hcat, pyErrMsg]

/-- Witness for claim C10: the concrete (alice, books) event with a failing
commit still prints the Graph Updated line and commits nothing. -/
theorem success_log_before_commit_w :
    (processMessage initState
      { payload := .wellFormed (eventPayload "alice" "books"),
        txRunFails := false, commitFails := true }).1.trace
      = initState.trace ++
          [.printed ("Received Event: " ++ pyStr (eventPayload "alice" "books")),
           .sessionOpened, .txStarted,
           .queryRun (.str "alice") (.str "books"),
           .printed ("Graph Updated: " ++ pyStr (Json.str "alice") ++ " -> "
             ++ pyStr (Json.str "books"))] ++
        (if true then
           [.txRolledBack, .sessionClosed, .printed ("Neo4j Error: " ++ pyErrMsg .neo4jError)]
         else [.txCommitted, .sessionClosed]) :=
  (success_log_before_commit initState (eventPayload "alice" "books")
    (.str "alice") (.str "books") true rfl rfl).1
